import Mathlib

/-
Verification of the Financial Planner engine (Python sources under src/).
Shallow embedding: Python floats are modelled as exact rationals (ℚ); the
irrational annual-to-monthly return conversion of the investment simulator
is modelled over ℝ.  Python dicts become structures or association lists;
a raised exception becomes an `Except.error`.
-/

namespace FinancialPlanner

/-! ## TaxCalculator — embedding of src/src/tax_calculator.py -/

namespace TaxCalculator

/-- One federal (or capital-gains) tax bracket `(lower, upper, rate)`;
`upper = none` models Python's `float('inf')`. -/
structure Bracket where
  lower : ℚ
  upper : Option ℚ
  rate : ℚ
deriving DecidableEq, Repr

/-- `self.federal_brackets` (2023, single filer), tax_calculator.py lines 13-21. -/
def federal_brackets : List Bracket :=
  [⟨0, some 11000, 10/100⟩,
   ⟨11000, some 44725, 12/100⟩,
   ⟨44725, some 95375, 22/100⟩,
   ⟨95375, some 182100, 24/100⟩,
   ⟨182100, some 231250, 32/100⟩,
   ⟨231250, some 578125, 35/100⟩,
   ⟨578125, none, 37/100⟩]

/-- `self.standard_deduction` (2023, single filer). -/
def standard_deduction : ℚ := 13850

/-- `self.social_security_rate`. -/
def social_security_rate : ℚ := 62/1000

/-- `self.social_security_cap`. -/
def social_security_cap : ℚ := 160200

/-- `self.medicare_rate`. -/
def medicare_rate : ℚ := 145/10000

/-- `self.additional_medicare_rate`. -/
def additional_medicare_rate : ℚ := 9/1000

/-- `self.additional_medicare_threshold`. -/
def additional_medicare_threshold : ℚ := 200000

/-- `self.retirement_limits["ira"]`. -/
def ira_limit : ℚ := 6500

/-- `self.retirement_limits["roth_ira_limit"]`. -/
def roth_ira_limit : ℚ := 153000

/-- `self.retirement_limits["roth_ira_phaseout"]`. -/
def roth_ira_phaseout : ℚ := 228000

/-- `bracket_income = min(taxable_income - lower, upper - lower)` from
`calculate_federal_income_tax` (line 88); for the unbounded top bracket the
`min` with infinity is the left argument. -/
def bracketIncome (taxable : ℚ) (b : Bracket) : ℚ :=
  match b.upper with
  | none => taxable - b.lower
  | some u => min (taxable - b.lower) (u - b.lower)

/-- The bracket loop of `calculate_federal_income_tax` (lines 85-91):
add `bracket_income * rate` while `taxable_income > lower`, `break` on the
first bracket whose lower bound is not exceeded. -/
def bracketTax (taxable : ℚ) : List Bracket → ℚ
  | [] => 0
  | b :: bs =>
    if b.lower < taxable then bracketIncome taxable b * b.rate + bracketTax taxable bs
    else 0

/-- `TaxCalculator.calculate_federal_income_tax` (lines 66-93).
`deductions = none` models the Python default `deductions=None`, replaced by
the standard deduction. -/
def calculate_federal_income_tax (annual_income : ℚ) (deductions : Option ℚ) : ℚ :=
  let ded := deductions.getD standard_deduction
  let taxable_income := max 0 (annual_income - ded)
  bracketTax taxable_income federal_brackets

/-- Result dict of `calculate_fica_taxes`. -/
structure FicaTaxes where
  social_security : ℚ
  medicare : ℚ
  total_fica : ℚ
deriving DecidableEq, Repr

/-- `TaxCalculator.calculate_fica_taxes` (lines 95-122). -/
def calculate_fica_taxes (annual_income : ℚ) : FicaTaxes :=
  let ss_taxable_income := min annual_income social_security_cap
  let social_security_tax := ss_taxable_income * social_security_rate
  let basic_medicare_tax := annual_income * medicare_rate
  let additional_medicare_tax :=
    if additional_medicare_threshold < annual_income then
      (annual_income - additional_medicare_threshold) * additional_medicare_rate
    else 0
  let total_medicare_tax := basic_medicare_tax + additional_medicare_tax
  ⟨social_security_tax, total_medicare_tax, social_security_tax + total_medicare_tax⟩

/-- `TaxCalculator._check_roth_contribution_limit` (lines 239-261). -/
def check_roth_contribution_limit (annual_income proposed_contribution : ℚ) : ℚ :=
  if annual_income ≤ roth_ira_limit then
    min proposed_contribution ira_limit
  else if annual_income < roth_ira_phaseout then
    let phase_out_range := roth_ira_phaseout - roth_ira_limit
    let phase_out_percent := (roth_ira_phaseout - annual_income) / phase_out_range
    let allowed := phase_out_percent * ira_limit
    min proposed_contribution allowed
  else 0

/-- Result dict of `calculate_retirement_contribution_tax_savings`; the Python
function returns dicts with different key sets for the roth and traditional
branches, modelled with optional fields. -/
structure RetirementSavings where
  current_year_tax_savings : ℚ
  contribution_allowed : Option ℚ
  effective_contribution_cost : Option ℚ
  tax_savings_rate : Option ℚ
deriving DecidableEq, Repr

/-- `TaxCalculator.calculate_retirement_contribution_tax_savings` (lines
209-237).  The Python `.lower() == "roth"` comparison is modelled by direct
comparison with `"roth"`. -/
def calculate_retirement_contribution_tax_savings
    (annual_income contribution : ℚ) (retirement_account_type : String) :
    RetirementSavings :=
  if retirement_account_type = "roth" then
    ⟨0, some (check_roth_contribution_limit annual_income contribution), none, none⟩
  else
    let tax_without_contribution := calculate_federal_income_tax annual_income none
    let tax_with_contribution :=
      calculate_federal_income_tax (annual_income - contribution) none
    let tax_savings := tax_without_contribution - tax_with_contribution
    ⟨tax_savings, none, some (contribution - tax_savings),
     some (if 0 < contribution then tax_savings / contribution else 0)⟩

/-- Spec-side description of "income falling within the bracket": the part of
the taxable income between the bracket's lower and upper bound, clamped at 0
(written from the spec's words, for comparison with `bracketIncome`). -/
def bracketIncomeSpec (taxable : ℚ) (b : Bracket) : ℚ :=
  max 0 ((match b.upper with | none => taxable | some u => min taxable u) - b.lower)

/-- Spec-side federal tax: sum over all brackets of the income falling within
the bracket times the bracket's rate (no early break). -/
def bracketTaxSpec (taxable : ℚ) (bs : List Bracket) : ℚ :=
  (bs.map (fun b => bracketIncomeSpec taxable b * b.rate)).sum

/-- A bracket whose upper bound (when finite) lies above its lower bound. -/
def bracketWF (b : Bracket) : Bool :=
  match b.upper with
  | none => true
  | some u => b.lower ≤ u

end TaxCalculator

/-! ## Profile — the mapping-shaped financial profile (spec section 3)

A Python profile dict with dynamically discovered `expense_<category>` keys.
Absent keys are `none`; `expenses` lists the `expense_` entries with the
prefix stripped (category, amount). -/

structure Profile where
  monthly_income : Option ℚ := none
  current_savings : Option ℚ := none
  monthly_savings : Option ℚ := none
  expenses : List (String × ℚ) := []
  primary_debt_type : Option String := none
  primary_debt_apr : Option ℚ := none
  total_debt : Option ℚ := none
  age : Option ℚ := none
  risk_tolerance : Option String := none

/-- `sum(v for k, v in profile.items() if k.startswith('expense_'))`. -/
def Profile.monthly_expenses (p : Profile) : ℚ :=
  (p.expenses.map Prod.snd).sum

/-- `profile.get('expense_<cat>', 0)` for one expense category. -/
def Profile.getExpense (p : Profile) (cat : String) : ℚ :=
  (p.expenses.lookup cat).getD 0

/-- All fields absent: models the empty dict, which is falsy in Python. -/
def Profile.isEmptyDict (p : Profile) : Bool :=
  p.monthly_income.isNone && p.current_savings.isNone && p.monthly_savings.isNone
    && p.expenses.isEmpty && p.primary_debt_type.isNone && p.primary_debt_apr.isNone
    && p.total_debt.isNone && p.age.isNone && p.risk_tolerance.isNone

/-- A well-formed profile per spec section 3: required `monthly_income` ≥ 0 and
`current_savings` ≥ 0 present, every expense amount ≥ 0. -/
def Profile.WellFormed (p : Profile) : Prop :=
  (∃ i, p.monthly_income = some i ∧ 0 ≤ i)
  ∧ (∃ s, p.current_savings = some s ∧ 0 ≤ s)
  ∧ ∀ e ∈ p.expenses, 0 ≤ e.2

/-! ## HealthAnalyzer — embedding of src/src/analyzer.py -/

namespace FinancialAnalyzer

inductive Severity | low | medium | high
deriving DecidableEq, Repr

/-- An issue record; the formatted `details` string carries only numeric
formatting and is omitted. -/
structure Issue where
  issue : String
  severity : Severity
  recommendation : String
deriving DecidableEq, Repr

/-- Python `round(x, 1)` uses round-half-to-even on the scaled value;
floating-point representation error is not modelled. -/
def roundHalfEven (x : ℚ) : ℤ :=
  let f := Int.floor x
  let r := x - f
  if r < 1/2 then f
  else if 1/2 < r then f + 1
  else if f % 2 = 0 then f else f + 1

/-- `round(x, 1)`. -/
def round1 (x : ℚ) : ℚ := (roundHalfEven (x * 10) : ℚ) / 10

/-- `FinancialAnalyzer._check_emergency_fund` (analyzer.py lines 19-33). -/
def check_emergency_fund (p : Profile) : Option Issue :=
  let monthly_expenses := p.monthly_expenses
  let current_savings := p.current_savings.getD 0
  let min_recommended := monthly_expenses * 3
  if current_savings < min_recommended then
    let months_saved :=
      if 0 < monthly_expenses then round1 (current_savings / monthly_expenses) else 0
    some ⟨"Insufficient emergency fund",
          if months_saved < 1 then Severity.high else Severity.medium,
          "Increase monthly savings allocation until emergency fund reaches 3-6 months of expenses"⟩
  else none

/-- `FinancialAnalyzer._check_debt_to_income` (lines 35-51). -/
def check_debt_to_income (p : Profile) : Option Issue :=
  let monthly_income := p.monthly_income.getD 0
  let debt_payments := p.getExpense "debt_payments"
  if 0 < monthly_income then
    let dti_ratio := debt_payments / monthly_income * 100
    if 36 < dti_ratio then
      some ⟨"High debt-to-income ratio",
            if 50 < dti_ratio then Severity.high else Severity.medium,
            "Focus on paying down high-interest debt and avoid taking on new debt"⟩
    else none
  else none

/-- `FinancialAnalyzer._check_expense_ratio` (lines 53-82). -/
def check_expense_ratio (p : Profile) : Option Issue :=
  let monthly_expenses := p.monthly_expenses
  let monthly_income := p.monthly_income.getD 0
  if monthly_income = 0 then
    some ⟨"Missing income information", Severity.high,
          "Ensure accurate monthly income is entered to assess financial health"⟩
  else
    let expense_ratio := monthly_expenses / monthly_income * 100
    if 90 < expense_ratio then
      some ⟨"Excessive expenses", Severity.high,
            "Review budget to identify areas for reduction, especially discretionary spending"⟩
    else if 80 < expense_ratio then
      some ⟨"High expenses", Severity.medium,
            "Consider the 50/30/20 rule: 50% needs, 30% wants, 20% savings/debt repayment"⟩
    else none

/-- `FinancialAnalyzer._check_savings_rate` (lines 84-104).  Unlike its
siblings this detector indexes `profile['monthly_income']` directly, so a
profile without that key raises `KeyError`, modelled as `Except.error`. -/
def check_savings_rate (p : Profile) : Except String (Option Issue) :=
  match p.monthly_income with
  | none => Except.error "KeyError: monthly_income"
  | some monthly_income =>
    let monthly_savings :=
      match p.monthly_savings with
      | some s => s
      | none => monthly_income - p.monthly_expenses
    let savings_rate :=
      if 0 < monthly_income then monthly_savings / monthly_income * 100 else 0
    if savings_rate < 10 then
      Except.ok (some ⟨"Low savings rate",
        if 0 < savings_rate then Severity.medium else Severity.high,
        "Aim to increase savings rate by reducing discretionary spending"⟩)
    else Except.ok none

/-- `FinancialAnalyzer._check_high_interest_debt` (lines 106-118). -/
def check_high_interest_debt (p : Profile) : Option Issue :=
  let primary_debt_type := p.primary_debt_type.getD "None"
  let primary_debt_apr := p.primary_debt_apr.getD 0
  if primary_debt_type ≠ "None" ∧ 10 < primary_debt_apr then
    some ⟨"High-interest debt",
          if 20 < primary_debt_apr then Severity.high else Severity.medium,
          "Prioritize paying off high-interest debt before focusing on other financial goals"⟩
  else none

structure AnalysisResult where
  financial_health : String
  issues : List Issue
  action_plan : List String
deriving DecidableEq, Repr

/-- The pre-built degraded result of `analyze_profile` (lines 124-133). -/
def invalid_profile_result : AnalysisResult :=
  ⟨"Poor",
   [⟨"Invalid Profile Data", Severity.high,
     "Re-enter financial data and verify all inputs are correct"⟩],
   ["Re-enter financial data", "Verify all inputs are correct"]⟩

/-- `FinancialAnalyzer.analyze_profile` (lines 120-162).  The input `none`
models a Python `None` or non-dict argument; `some p` a dict.  The guard
`if not profile or not isinstance(profile, dict)` also catches the empty
(falsy) dict.  Exceptions escaping a detector propagate to the caller. -/
def analyze_profile (profile : Option Profile) : Except String AnalysisResult :=
  match profile with
  | none => Except.ok invalid_profile_result
  | some p =>
    if p.isEmptyDict then Except.ok invalid_profile_result
    else
      let i1 := check_emergency_fund p
      let i2 := check_debt_to_income p
      let i3 := check_expense_ratio p
      match check_savings_rate p with
      | Except.error e => Except.error e
      | Except.ok i4 =>
        let i5 := check_high_interest_debt p
        let issues := [i1, i2, i3, i4, i5].filterMap id
        let financial_health :=
          if issues.length = 0 then "Excellent"
          else if 0 < (issues.filter (fun i => i.severity == Severity.high)).length then "Poor"
          else if issues.length ≤ 2 then "Good"
          else "Fair"
        let high_priority :=
          (issues.filter (fun i => i.severity == Severity.high)).map Issue.recommendation
        let medium_priority :=
          (issues.filter (fun i => i.severity == Severity.medium)).map Issue.recommendation
        Except.ok ⟨financial_health, issues, high_priority ++ medium_priority⟩

/-- The spec's months_saved for the emergency-fund rule, written from the
spec's words: `current_savings / monthly_expenses` (0 if expenses are 0),
with no rounding. -/
def monthsSavedSpec (p : Profile) : ℚ :=
  if p.monthly_expenses = 0 then 0 else p.current_savings.getD 0 / p.monthly_expenses

/-- The code's months_saved: rounded to one decimal (analyzer.py line 26). -/
def monthsSavedCode (p : Profile) : ℚ :=
  if 0 < p.monthly_expenses then round1 (p.current_savings.getD 0 / p.monthly_expenses) else 0

/-- Well-formed profile with no expenses: savings 0 covers 0 months. -/
def profileNoExpenses : Profile :=
  { monthly_income := some 1000, current_savings := some 0 }

/-- Well-formed profile whose months_saved is 0.97 (rounds to 1.0). -/
def profileAlmostOneMonth : Profile :=
  { monthly_income := some 5000, current_savings := some 970,
    expenses := [("housing", 1000)] }

/-- A non-empty mapping that lacks `monthly_income`. -/
def profileMissingIncome : Profile :=
  { current_savings := some 100 }

end FinancialAnalyzer

/-! ## PathSimulator — embedding of src/src/simulator.py

`_calculate_monthly_results` extracts `monthly_income`, the expense sum,
`current_savings`, `total_debt` and `primary_debt_apr` from the profile and
the scenario parameters before the loop; the loop itself is embedded here
over those extracted values.  The per-month records other than the running
state (`date`) are not needed by the claims and are omitted. -/

namespace FinancialSimulator

/-- The running totals mutated by the month loop (simulator.py lines 52-105). -/
structure SimState where
  monthly_income : ℚ
  total_savings : ℚ
  total_debt : ℚ
deriving DecidableEq, Repr

/-- One iteration of the month loop (lines 57-105) at month index `i`:
annual income growth when `i > 0 and i % 12 == 0`, then debt interest and
payment when the balance is positive, then savings interest. -/
def monthStep (monthly_expenses avg_apr_pct extra_debt_payment income_growth : ℚ)
    (i : ℕ) (s : SimState) : SimState :=
  let monthly_income :=
    if 0 < i ∧ i % 12 = 0 then s.monthly_income * (1 + income_growth) else s.monthly_income
  let this_month_savings := monthly_income - monthly_expenses
  if 0 < s.total_debt then
    let monthly_interest_rate := avg_apr_pct / 100 / 12
    let interest_amount := s.total_debt * monthly_interest_rate
    let min_payment := max (s.total_debt * (2/100)) 25
    let total_payment := min (min_payment + extra_debt_payment) (s.total_debt + interest_amount)
    let new_debt := s.total_debt + interest_amount - total_payment
    let adjusted_savings := this_month_savings - total_payment
    let interest_earned := s.total_savings * (2/100 / 12)
    ⟨monthly_income, s.total_savings + adjusted_savings + interest_earned, new_debt⟩
  else
    let interest_earned := s.total_savings * (2/100 / 12)
    ⟨monthly_income, s.total_savings + this_month_savings + interest_earned, s.total_debt⟩

/-- State after the first `n` months of the loop. -/
def simStates (monthly_expenses avg_apr_pct extra_debt_payment income_growth : ℚ)
    (init : SimState) : ℕ → SimState
  | 0 => init
  | n + 1 =>
    monthStep monthly_expenses avg_apr_pct extra_debt_payment income_growth n
      (simStates monthly_expenses avg_apr_pct extra_debt_payment income_growth init n)

/-- The `debt` column records `max(0, total_debt)` after month `i` is
processed (line 101). -/
def recordedDebt (monthly_expenses avg_apr_pct extra_debt_payment income_growth : ℚ)
    (init : SimState) (i : ℕ) : ℚ :=
  max 0 (simStates monthly_expenses avg_apr_pct extra_debt_payment income_growth init (i + 1)).total_debt

/-- First index in `[start, start + fuel)` satisfying `p`. -/
def findFrom (p : ℕ → Bool) : ℕ → ℕ → Option ℕ
  | _, 0 => none
  | start, fuel + 1 => if p start then some start else findFrom p (start + 1) fuel

/-- The debt-free milestone of `compare_scenarios` (lines 149-150): the first
month index of the horizon whose recorded debt is ≤ 0 (the row whose `date`
is minimal, dates being increasing in the month index), `none` when no such
month exists. -/
def debt_free_month (monthly_expenses avg_apr_pct extra_debt_payment income_growth : ℚ)
    (init : SimState) (months : ℕ) : Option ℕ :=
  findFrom
    (fun i => decide
      (recordedDebt monthly_expenses avg_apr_pct extra_debt_payment income_growth init i ≤ 0))
    0 months

/-- The debt balance recursion extracted from the loop body (lines 76-92):
the debt update depends only on the running balance, the APR and the extra
payment. -/
def debtStep (avg_apr_pct extra_debt_payment d : ℚ) : ℚ :=
  if 0 < d then
    let monthly_interest_rate := avg_apr_pct / 100 / 12
    let interest_amount := d * monthly_interest_rate
    let min_payment := max (d * (2/100)) 25
    let total_payment := min (min_payment + extra_debt_payment) (d + interest_amount)
    d + interest_amount - total_payment
  else d

/-- Debt balance after `n` months. -/
def debtIter (avg_apr_pct extra_debt_payment d0 : ℚ) : ℕ → ℚ
  | 0 => d0
  | n + 1 => debtStep avg_apr_pct extra_debt_payment (debtIter avg_apr_pct extra_debt_payment d0 n)

end FinancialSimulator

/-! ## InvestmentSimulator — embedding of src/src/investment_simulator.py -/

namespace InvestmentSimulator

/-- One entry of `self.asset_classes` (investment_simulator.py lines 19-45). -/
structure AssetClass where
  avg_return : ℚ
  volatility : ℚ
  risk_level : String
deriving DecidableEq, Repr

/-- `self.asset_classes`. -/
def asset_classes : List (String × AssetClass) :=
  [("savings_account", ⟨2/100, 2/1000, "very_low"⟩),
   ("bonds", ⟨4/100, 5/100, "low"⟩),
   ("index_funds", ⟨8/100, 15/100, "medium"⟩),
   ("stocks", ⟨10/100, 20/100, "high"⟩),
   ("crypto", ⟨15/100, 50/100, "very_high"⟩)]

/-- The parameters of the `np.random.normal(monthly_return,
monthly_volatility, months)` call: the sampling itself is random and is
abstracted by the distribution it draws from. -/
structure NormalSpec where
  mean : ℝ
  std : ℝ
  size : ℕ

/-- `InvestmentSimulator._generate_monthly_returns` (lines 86-98), embedded as
the normal distribution it samples: mean `(1 + annual) ** (1/12) - 1`,
standard deviation `annual_volatility / sqrt(12)`. -/
noncomputable def generate_monthly_returns (asset_class : String) (months : ℕ) :
    Option NormalSpec :=
  (asset_classes.lookup asset_class).map fun asset =>
    ⟨(1 + (asset.avg_return : ℝ)) ^ ((1 : ℝ) / 12) - 1,
     (asset.volatility : ℝ) / Real.sqrt 12, months⟩

/-- `self.risk_profiles["very_conservative"]` (lines 49-55). -/
def very_conservative_allocation : List (String × ℚ) :=
  [("savings_account", 70/100), ("bonds", 30/100), ("index_funds", 0),
   ("stocks", 0), ("crypto", 0)]

/-- `self.risk_profiles["conservative"]` (lines 56-62). -/
def conservative_allocation : List (String × ℚ) :=
  [("savings_account", 40/100), ("bonds", 40/100), ("index_funds", 20/100),
   ("stocks", 0), ("crypto", 0)]

/-- `self.risk_profiles["moderate"]` (lines 63-69). -/
def moderate_allocation : List (String × ℚ) :=
  [("savings_account", 20/100), ("bonds", 30/100), ("index_funds", 40/100),
   ("stocks", 10/100), ("crypto", 0)]

/-- `self.risk_profiles["aggressive"]` (lines 70-76). -/
def aggressive_allocation : List (String × ℚ) :=
  [("savings_account", 10/100), ("bonds", 15/100), ("index_funds", 40/100),
   ("stocks", 30/100), ("crypto", 5/100)]

/-- `self.risk_profiles["very_aggressive"]` (lines 77-83). -/
def very_aggressive_allocation : List (String × ℚ) :=
  [("savings_account", 5/100), ("bonds", 10/100), ("index_funds", 30/100),
   ("stocks", 40/100), ("crypto", 15/100)]

/-- `self.risk_profiles` (lines 48-84). -/
def risk_profiles : List (String × List (String × ℚ)) :=
  [("very_conservative", very_conservative_allocation),
   ("conservative", conservative_allocation),
   ("moderate", moderate_allocation),
   ("aggressive", aggressive_allocation),
   ("very_aggressive", very_aggressive_allocation)]

/-- Allocation weight of one asset (`allocation[asset]`, 0 if absent). -/
def allocW (allocation : List (String × ℚ)) (asset : String) : ℚ :=
  (allocation.lookup asset).getD 0

/-- The asset classes with nonzero allocation weight, in dict order —
the only ones the simulation tracks (`if allocation[asset] > 0`). -/
def activeAssets (allocation : List (String × ℚ)) : List String :=
  (allocation.filter (fun x => 0 < x.2)).map Prod.fst

/-- One month's update of `current_values` (lines 147-162): every asset with
positive weight advances by `value * (1 + r) + contribution * weight`.
`r` gives this month's sampled return per asset.  (The `else` fallback for
running out of returns, lines 156-159, is dead: the return series has exactly
`months` entries.) -/
def stepValues (allocation : List (String × ℚ)) (r : String → ℚ) (monthly_contribution : ℚ)
    (v : String → ℚ) : String → ℚ :=
  fun a =>
    if 0 < allocW allocation a then
      v a * (1 + r a) + monthly_contribution * allocW allocation a
    else v a

/-- `sum(current_values.values())` (line 165): only assets with positive
weight ever enter `current_values`. -/
def sumActive (allocation : List (String × ℚ)) (v : String → ℚ) : ℚ :=
  ((activeAssets allocation).map v).sum

/-- One recorded row of the result frame: the month's `total_value` and the
per-asset values (meaningful on the active assets). -/
structure RowQ where
  total_value : ℚ
  vals : String → ℚ

/-- The month loop (lines 142-166) starting at month index `i` with `fuel`
remaining months and current values `v`; each month appends a row holding the
updated per-asset values and their total. -/
def simLoop (allocation : List (String × ℚ)) (ret : String → ℕ → ℚ)
    (monthly_contribution : ℚ) : ℕ → ℕ → (String → ℚ) → List RowQ
  | _, 0, _ => []
  | i, fuel + 1, v =>
    let v2 := stepValues allocation (fun a => ret a i) monthly_contribution v
    ⟨sumActive allocation v2, v2⟩ :: simLoop allocation ret monthly_contribution (i + 1) fuel v2

/-- `InvestmentSimulator.simulate_investment_path` (lines 100-168), with the
sampled return series abstracted as `ret` (asset, month index ↦ return).
Unknown risk profiles raise `ValueError` (line 113).  Initial values are
`initial_investment * weight` (lines 136-139). -/
def simulate_investment_path (risk_profile : String)
    (monthly_contribution initial_investment : ℚ) (ret : String → ℕ → ℚ)
    (months : ℕ) : Except String (List RowQ) :=
  match risk_profiles.lookup risk_profile with
  | none => Except.error "Risk profile not recognized"
  | some allocation =>
    Except.ok
      (simLoop allocation ret monthly_contribution 0 months
        (fun a => initial_investment * allocW allocation a))

/-- Per-asset values after `k` further months starting from month index `i0`
with values `v` — the state recursion underlying `simLoop`. -/
def valsAfter (allocation : List (String × ℚ)) (ret : String → ℕ → ℚ)
    (monthly_contribution : ℚ) (i0 : ℕ) (v : String → ℚ) : ℕ → (String → ℚ)
  | 0 => v
  | k + 1 =>
    stepValues allocation (fun a => ret a (i0 + k)) monthly_contribution
      (valsAfter allocation ret monthly_contribution i0 v k)

/-- `risk_score_map.get(risk_tolerance, 6)` (lines 234-239). -/
def risk_score_map (risk_tolerance : String) : ℚ :=
  if risk_tolerance = "Low" then 3
  else if risk_tolerance = "Medium" then 6
  else if risk_tolerance = "High" then 9
  else 6

/-- The threshold chain mapping the weighted score to a profile name
(lines 245-254). -/
def score_to_profile (total_score : ℚ) : String :=
  if total_score < 3 then "very_conservative"
  else if total_score < 5 then "conservative"
  else if total_score < 7 then "moderate"
  else if total_score < 85/10 then "aggressive"
  else "very_aggressive"

/-- `InvestmentSimulator.recommend_risk_profile` (lines 210-254). -/
def recommend_risk_profile (user_profile : Profile) : String :=
  let age := user_profile.age.getD 35
  let years_to_retirement := max (65 - age) 5
  let emergency_score : ℚ :=
    if user_profile.monthly_expenses * 3 ≤ user_profile.current_savings.getD 0 then 7 else 3
  let risk_tolerance := user_profile.risk_tolerance.getD "Medium"
  let time_score := min 10 (years_to_retirement / 4)
  let risk_score := risk_score_map risk_tolerance
  let total_score := time_score * (5/10) + emergency_score * (3/10) + risk_score * (2/10)
  score_to_profile total_score

/-- Position of a profile name in the risk-tier order
very_conservative < conservative < moderate < aggressive < very_aggressive. -/
def riskTierIndex (s : String) : ℕ :=
  if s = "very_conservative" then 0
  else if s = "conservative" then 1
  else if s = "moderate" then 2
  else if s = "aggressive" then 3
  else 4

/-- An all-zero sampled-return table, used to exercise the simulation on a
concrete input. -/
def zeroReturns : String → ℕ → ℚ := fun _ _ => 0

/-- A concrete one-month moderate-profile simulation output (contribution 5,
initial investment 10, zero sampled returns). -/
def c10rows : List RowQ :=
  simLoop moderate_allocation zeroReturns 5 0 1
    (fun a => 10 * allocW moderate_allocation a)

end InvestmentSimulator

/-! ## Theorems -/

namespace TaxCalculator

/-- The clamp of the taxable income at a bracket's upper bound. -/
theorem upperClamp_le (t : ℚ) (b : Bracket) :
    (match b.upper with | none => t | some u => min t u) ≤ t := by
  cases h : b.upper with
  | none => exact le_refl t
  | some u => exact min_le_left t u

theorem upperClamp_mono (b : Bracket) {t1 t2 : ℚ} (h : t1 ≤ t2) :
    (match b.upper with | none => t1 | some u => min t1 u)
      ≤ (match b.upper with | none => t2 | some u => min t2 u) := by
  cases hb : b.upper with
  | none => exact h
  | some u => exact min_le_min h (le_refl u)

theorem bracketIncomeSpec_of_le (b : Bracket) (t : ℚ) (h : t ≤ b.lower) :
    bracketIncomeSpec t b = 0 := by
  unfold bracketIncomeSpec
  refine max_eq_left ?_
  have := upperClamp_le t b
  linarith

theorem bracketIncomeSpec_nonneg (b : Bracket) (t : ℚ) : 0 ≤ bracketIncomeSpec t b :=
  le_max_left 0 _

theorem bracketIncomeSpec_mono (b : Bracket) {t1 t2 : ℚ} (h : t1 ≤ t2) :
    bracketIncomeSpec t1 b ≤ bracketIncomeSpec t2 b := by
  unfold bracketIncomeSpec
  exact max_le_max (le_refl 0) (sub_le_sub_right (upperClamp_mono b h) _)

theorem bracketIncome_eq_spec (b : Bracket) (t : ℚ) (hwf : bracketWF b = true)
    (h : b.lower < t) : bracketIncome t b = bracketIncomeSpec t b := by
  unfold bracketIncome bracketIncomeSpec bracketWF at *
  cases hb : b.upper with
  | none =>
    show t - b.lower = max 0 (t - b.lower)
    exact (max_eq_right (by linarith)).symm
  | some u =>
    have hlu : b.lower ≤ u := by
      have := hwf
      simp only [hb] at this
      simpa using this
    show min (t - b.lower) (u - b.lower) = max 0 (min t u - b.lower)
    rcases le_total t u with htu | htu
    · rw [min_eq_left htu, min_eq_left (by linarith : t - b.lower ≤ u - b.lower)]
      exact (max_eq_right (by linarith)).symm
    · rw [min_eq_right htu, min_eq_right (by linarith : u - b.lower ≤ t - b.lower)]
      exact (max_eq_right (by linarith)).symm

theorem bracketTaxSpec_zero_of_le (t : ℚ) (bs : List Bracket)
    (h : ∀ b ∈ bs, t ≤ b.lower) : bracketTaxSpec t bs = 0 := by
  induction bs with
  | nil => rfl
  | cons b bs ih =>
    unfold bracketTaxSpec
    rw [List.map_cons, List.sum_cons, bracketIncomeSpec_of_le b t (h b (by simp)),
      zero_mul, zero_add]
    exact ih fun x hx => h x (List.mem_cons_of_mem b hx)

theorem bracketTax_eq_bracketTaxSpec (t : ℚ) :
    ∀ bs : List Bracket,
      bs.Pairwise (fun a b => a.lower ≤ b.lower) →
      (∀ b ∈ bs, bracketWF b = true) →
      bracketTax t bs = bracketTaxSpec t bs := by
  intro bs
  induction bs with
  | nil => intro _ _; rfl
  | cons b bs ih =>
    intro hp hwf
    rw [List.pairwise_cons] at hp
    unfold bracketTax bracketTaxSpec
    rw [List.map_cons, List.sum_cons]
    by_cases h : b.lower < t
    · rw [if_pos h, bracketIncome_eq_spec b t (hwf b (by simp)) h,
        ih hp.2 (fun x hx => hwf x (List.mem_cons_of_mem b hx))]
      rfl
    · rw [if_neg h, bracketIncomeSpec_of_le b t (not_lt.mp h), zero_mul, zero_add]
      exact (bracketTaxSpec_zero_of_le t bs
        (fun x hx => le_trans (not_lt.mp h) (hp.1 x hx))).symm

theorem federal_brackets_sorted :
    federal_brackets.Pairwise (fun a b => a.lower ≤ b.lower) := by
  simp only [federal_brackets, List.pairwise_cons, List.mem_cons, List.mem_singleton,
    List.not_mem_nil, List.Pairwise.nil]
  norm_num

theorem federal_brackets_wf : ∀ b ∈ federal_brackets, bracketWF b = true := by
  intro b hb
  fin_cases hb <;> simp [bracketWF] <;> norm_num

theorem federal_brackets_rates_nonneg : ∀ b ∈ federal_brackets, 0 ≤ b.rate := by
  intro b hb
  fin_cases hb <;> norm_num

theorem calculate_federal_income_tax_eq_spec (annual_income : ℚ) (deductions : Option ℚ) :
    calculate_federal_income_tax annual_income deductions =
      bracketTaxSpec (max 0 (annual_income - deductions.getD standard_deduction))
        federal_brackets :=
  bracketTax_eq_bracketTaxSpec _ federal_brackets federal_brackets_sorted federal_brackets_wf

theorem bracketTaxSpec_nonneg (t : ℚ) (bs : List Bracket)
    (hr : ∀ b ∈ bs, 0 ≤ b.rate) : 0 ≤ bracketTaxSpec t bs := by
  induction bs with
  | nil => exact le_refl 0
  | cons b bs ih =>
    unfold bracketTaxSpec
    rw [List.map_cons, List.sum_cons]
    have h1 : 0 ≤ bracketIncomeSpec t b * b.rate :=
      mul_nonneg (bracketIncomeSpec_nonneg b t) (hr b (by simp))
    have h2 := ih fun x hx => hr x (List.mem_cons_of_mem b hx)
    unfold bracketTaxSpec at h2
    linarith

theorem bracketTaxSpec_mono (bs : List Bracket) (hr : ∀ b ∈ bs, 0 ≤ b.rate)
    {t1 t2 : ℚ} (h : t1 ≤ t2) : bracketTaxSpec t1 bs ≤ bracketTaxSpec t2 bs := by
  induction bs with
  | nil => exact le_refl 0
  | cons b bs ih =>
    unfold bracketTaxSpec
    rw [List.map_cons, List.sum_cons, List.map_cons, List.sum_cons]
    have h1 : bracketIncomeSpec t1 b * b.rate ≤ bracketIncomeSpec t2 b * b.rate :=
      mul_le_mul_of_nonneg_right (bracketIncomeSpec_mono b h) (hr b (by simp))
    have h2 := ih fun x hx => hr x (List.mem_cons_of_mem b hx)
    unfold bracketTaxSpec at h2
    linarith

/-- Claim C4: for every income and deduction, the federal income tax equals
the sum over ascending brackets of the income falling within each bracket
times that bracket's rate, computed on `max 0 (income − deduction)` with the
standard deduction used when none is supplied; and on taxable income exactly
11000 (2023 single-filer brackets, zero deduction) the tax is exactly 1100,
nothing being taxed at the next bracket's rate. -/
theorem federal_tax_marginal_bracket_sum :
    (∀ (annual_income : ℚ) (deductions : Option ℚ),
        calculate_federal_income_tax annual_income deductions =
          bracketTaxSpec (max 0 (annual_income - deductions.getD standard_deduction))
            federal_brackets)
    ∧ calculate_federal_income_tax 11000 (some 0) = 1100 :=
  ⟨fun i d => calculate_federal_income_tax_eq_spec i d, by
    norm_num [calculate_federal_income_tax, federal_brackets, bracketTax, bracketIncome,
      standard_deduction]⟩

/-- Claim C9: federal tax is nonnegative and monotone non-decreasing in income
for any fixed nonnegative deduction, hence the traditional
retirement-contribution tax savings is never negative for contributions in
[0, income]. -/
theorem federal_tax_monotone_nonneg_savings :
    (∀ i1 i2 d : ℚ, 0 ≤ i1 → i1 ≤ i2 → 0 ≤ d →
        0 ≤ calculate_federal_income_tax i1 (some d)
        ∧ calculate_federal_income_tax i1 (some d) ≤ calculate_federal_income_tax i2 (some d))
    ∧ ∀ (annual_income contribution : ℚ), 0 ≤ contribution → contribution ≤ annual_income →
        0 ≤ (calculate_retirement_contribution_tax_savings annual_income contribution
              "traditional").current_year_tax_savings := by
  constructor
  · intro i1 i2 d _ h12 _
    constructor
    · rw [calculate_federal_income_tax_eq_spec]
      exact bracketTaxSpec_nonneg _ _ federal_brackets_rates_nonneg
    · rw [calculate_federal_income_tax_eq_spec i1 (some d),
        calculate_federal_income_tax_eq_spec i2 (some d)]
      exact bracketTaxSpec_mono _ federal_brackets_rates_nonneg
        (max_le_max (le_refl 0) (sub_le_sub_right h12 _))
  · intro inc c _ hci
    have hne : ¬("traditional" = "roth") := by decide
    show (0 : ℚ) ≤ _
    rw [calculate_retirement_contribution_tax_savings, if_neg hne]
    show 0 ≤ calculate_federal_income_tax inc none
          - calculate_federal_income_tax (inc - c) none
    rw [sub_nonneg, calculate_federal_income_tax_eq_spec inc none,
      calculate_federal_income_tax_eq_spec (inc - c) none]
    exact bracketTaxSpec_mono _ federal_brackets_rates_nonneg
      (max_le_max (le_refl 0) (sub_le_sub_right (by linarith) _))

/-- Witness for C9 at incomes 50000 ≤ 60000, deduction 0, contribution 1000. -/
theorem federal_tax_monotone_nonneg_savings_witness :
    (0 ≤ calculate_federal_income_tax 50000 (some 0)
      ∧ calculate_federal_income_tax 50000 (some 0)
          ≤ calculate_federal_income_tax 60000 (some 0))
    ∧ 0 ≤ (calculate_retirement_contribution_tax_savings 50000 1000
            "traditional").current_year_tax_savings :=
  ⟨federal_tax_monotone_nonneg_savings.1 50000 60000 0 (by norm_num) (by norm_num)
      (le_refl 0),
   federal_tax_monotone_nonneg_savings.2 50000 1000 (by norm_num) (by norm_num)⟩

/-- Claim C5: the allowed Roth contribution is the piecewise-linear phase-out:
full IRA limit at income 153000, zero at 228000, half the IRA limit at the
midpoint 190500, and between the bounds
`min contribution ((phaseout − income)/(phaseout − limit) × ira_limit)`. -/
theorem roth_phase_out_piecewise_linear :
    (∀ c : ℚ, check_roth_contribution_limit 153000 c = min c ira_limit)
    ∧ (∀ c : ℚ, check_roth_contribution_limit 228000 c = 0)
    ∧ (∀ c : ℚ, check_roth_contribution_limit 190500 c = min c (ira_limit / 2))
    ∧ ∀ (annual_income c : ℚ), 153000 < annual_income → annual_income < 228000 →
        check_roth_contribution_limit annual_income c =
          min c ((roth_ira_phaseout - annual_income)
                  / (roth_ira_phaseout - roth_ira_limit) * ira_limit) := by
  refine ⟨fun c => ?_, fun c => ?_, fun c => ?_, fun i c h1 h2 => ?_⟩
  · unfold check_roth_contribution_limit roth_ira_limit
    rw [if_pos (by norm_num)]
  · unfold check_roth_contribution_limit roth_ira_limit roth_ira_phaseout
    rw [if_neg (by norm_num), if_neg (by norm_num)]
  · unfold check_roth_contribution_limit roth_ira_limit roth_ira_phaseout ira_limit
    rw [if_neg (by norm_num), if_pos (by norm_num)]
    norm_num
  · unfold check_roth_contribution_limit roth_ira_limit roth_ira_phaseout
    rw [if_neg (by linarith), if_pos (by linarith)]

/-- Witness for C5's interpolation clause at income 200000, contribution 6500. -/
theorem roth_phase_out_piecewise_linear_witness :
    check_roth_contribution_limit 200000 6500 =
      min 6500 ((roth_ira_phaseout - 200000)
        / (roth_ira_phaseout - roth_ira_limit) * ira_limit) :=
  roth_phase_out_piecewise_linear.2.2.2 200000 6500 (by norm_num) (by norm_num)

/-- Counterexample to claim C2: negative annual income and negative
contribution are not rejected — the entry points return plain numbers
(federal tax 0, FICA taxes proportional and negative, a numeric negative
"savings"); no `InvalidTaxInput` exists in the code. -/
theorem tax_rejects_negative_counterexample :
    calculate_federal_income_tax (-50000) none = 0
    ∧ (calculate_fica_taxes (-50000)).social_security = -3100
    ∧ (calculate_fica_taxes (-50000)).medicare = -725
    ∧ (calculate_retirement_contribution_tax_savings 50000 (-1000)
        "traditional").current_year_tax_savings = -120 := by
  have hne : ¬("traditional" = "roth") := by decide
  refine ⟨?_, ?_, ?_, ?_⟩
  · norm_num [calculate_federal_income_tax, federal_brackets, bracketTax, standard_deduction]
  · norm_num [calculate_fica_taxes, social_security_cap, social_security_rate, min_def]
  · norm_num [calculate_fica_taxes, medicare_rate, additional_medicare_rate,
      additional_medicare_threshold]
  · rw [calculate_retirement_contribution_tax_savings, if_neg hne]
    norm_num [calculate_federal_income_tax, federal_brackets, bracketTax, bracketIncome,
      standard_deduction, min_def]

/-- Claim C2 (amended): the TaxCalculator entry points perform no input
validation.  Negative annual income yields federal tax 0 (the taxable income
is clamped at 0) and FICA taxes equal to income times the rates (negative
numbers), and the traditional retirement-savings entry point always returns
the numeric difference of federal taxes — nothing is rejected. -/
theorem tax_negative_inputs_no_rejection :
    (∀ annual_income : ℚ, annual_income < 0 →
        calculate_federal_income_tax annual_income none = 0
        ∧ (calculate_fica_taxes annual_income).social_security
            = annual_income * social_security_rate
        ∧ (calculate_fica_taxes annual_income).medicare
            = annual_income * medicare_rate)
    ∧ ∀ (annual_income contribution : ℚ),
        (calculate_retirement_contribution_tax_savings annual_income contribution
            "traditional").current_year_tax_savings
          = calculate_federal_income_tax annual_income none
            - calculate_federal_income_tax (annual_income - contribution) none := by
  constructor
  · intro i hi
    refine ⟨?_, ?_, ?_⟩
    · show bracketTax (max 0 (i - (none : Option ℚ).getD standard_deduction))
          federal_brackets = 0
      have hd : (none : Option ℚ).getD standard_deduction = 13850 := rfl
      rw [hd, max_eq_left (by linarith : i - 13850 ≤ 0)]
      norm_num [bracketTax, federal_brackets]
    · unfold calculate_fica_taxes
      rw [min_eq_left (by unfold social_security_cap; linarith : i ≤ social_security_cap)]
    · unfold calculate_fica_taxes
      rw [if_neg (by unfold additional_medicare_threshold; linarith :
        ¬(additional_medicare_threshold < i))]
      ring
  · intro i c
    have hne : ¬("traditional" = "roth") := by decide
    rw [calculate_retirement_contribution_tax_savings, if_neg hne]

/-- Witness for C2's amended claim at income −1000. -/
theorem tax_negative_inputs_no_rejection_witness :
    calculate_federal_income_tax (-1000) none = 0
    ∧ (calculate_fica_taxes (-1000)).social_security = -1000 * social_security_rate
    ∧ (calculate_fica_taxes (-1000)).medicare = -1000 * medicare_rate :=
  tax_negative_inputs_no_rejection.1 (-1000) (by norm_num)

end TaxCalculator

namespace FinancialAnalyzer

/-- Claim C1 (code behaviour at the failing input): for a `None`/non-dict
input, `analyze_profile` returns the pre-built "Poor" result with exactly one
high-severity issue — but a non-empty mapping that merely lacks
`monthly_income` reaches `_check_savings_rate`, whose direct
`profile['monthly_income']` indexing raises `KeyError`, which propagates out
of `analyze_profile` instead of the pre-built result the claim promises. -/
theorem analyze_profile_missing_income_raises :
    analyze_profile (some profileMissingIncome)
        = Except.error "KeyError: monthly_income"
    ∧ analyze_profile none = Except.ok invalid_profile_result
    ∧ invalid_profile_result.financial_health = "Poor"
    ∧ invalid_profile_result.issues.map Issue.severity = [Severity.high] :=
  ⟨rfl, rfl, rfl, rfl⟩

/-- Expense total of `profileNoExpenses` is 0. -/
theorem profileNoExpenses_expenses : profileNoExpenses.monthly_expenses = 0 := by
  simp [Profile.monthly_expenses, profileNoExpenses]

/-- Expense total of `profileAlmostOneMonth` is 1000. -/
theorem profileAlmostOneMonth_expenses :
    profileAlmostOneMonth.monthly_expenses = 1000 := by
  simp [Profile.monthly_expenses, profileAlmostOneMonth]

/-- Python `round(0.97, 1) = 1.0`. -/
theorem round1_097 : round1 (970 / 1000 : ℚ) = 1 := by
  simp only [round1, roundHalfEven]
  rw [show (970 / 1000 : ℚ) * 10 = 97 / 10 by norm_num]
  rw [show ⌊(97 / 10 : ℚ)⌋ = 9 by rw [Int.floor_eq_iff]; constructor <;> norm_num]
  rw [if_neg (by norm_num), if_pos (by norm_num)]
  norm_num

theorem profileNoExpenses_wf : profileNoExpenses.WellFormed :=
  ⟨⟨1000, rfl, by norm_num⟩, ⟨0, rfl, le_refl 0⟩, by simp [profileNoExpenses]⟩

theorem profileAlmostOneMonth_wf : profileAlmostOneMonth.WellFormed :=
  ⟨⟨5000, rfl, by norm_num⟩, ⟨970, rfl, by norm_num⟩, by
    intro e he
    simp only [profileAlmostOneMonth, List.mem_singleton] at he
    rw [he]
    norm_num⟩

/-- Closed form of the detector: issue exactly when
`savings < 3 × expenses`, severity from the rounded months_saved. -/
theorem check_emergency_fund_eq (p : Profile) :
    check_emergency_fund p =
      if p.current_savings.getD 0 < p.monthly_expenses * 3 then
        some ⟨"Insufficient emergency fund",
          if monthsSavedCode p < 1 then Severity.high else Severity.medium,
          "Increase monthly savings allocation until emergency fund reaches 3-6 months of expenses"⟩
      else none := by
  unfold check_emergency_fund monthsSavedCode
  rfl

theorem monthsSavedCode_profileAlmostOneMonth :
    monthsSavedCode profileAlmostOneMonth = 1 := by
  unfold monthsSavedCode
  rw [profileAlmostOneMonth_expenses, if_pos (by norm_num)]
  rw [show profileAlmostOneMonth.current_savings.getD 0 = 970 from rfl]
  exact round1_097

/-- Counterexample to claim C6.  First input: a well-formed profile with zero
expenses and zero savings — the claim's months_saved is 0 < 3, yet the
detector emits nothing (the code tests `savings < 3 × expenses`, there
`0 < 0`).  Second input: a well-formed profile with months_saved
970/1000 < 1 — the claim demands severity high, but the code rounds
months_saved to one decimal (1.0) first and emits severity medium. -/
theorem emergency_fund_claim_counterexample :
    (profileNoExpenses.WellFormed ∧ monthsSavedSpec profileNoExpenses < 3
      ∧ check_emergency_fund profileNoExpenses = none)
    ∧ (profileAlmostOneMonth.WellFormed ∧ monthsSavedSpec profileAlmostOneMonth < 1
      ∧ check_emergency_fund profileAlmostOneMonth =
          some ⟨"Insufficient emergency fund", Severity.medium,
            "Increase monthly savings allocation until emergency fund reaches 3-6 months of expenses"⟩) := by
  refine ⟨⟨profileNoExpenses_wf, ?_, ?_⟩, ⟨profileAlmostOneMonth_wf, ?_, ?_⟩⟩
  · rw [monthsSavedSpec, if_pos profileNoExpenses_expenses]
    norm_num
  · rw [check_emergency_fund_eq]
    rw [if_neg]
    rw [profileNoExpenses_expenses,
      show profileNoExpenses.current_savings.getD 0 = 0 from rfl]
    norm_num
  · rw [monthsSavedSpec, if_neg (by rw [profileAlmostOneMonth_expenses]; norm_num)]
    rw [profileAlmostOneMonth_expenses,
      show profileAlmostOneMonth.current_savings.getD 0 = 970 from rfl]
    norm_num
  · rw [check_emergency_fund_eq]
    rw [if_pos (by
      rw [profileAlmostOneMonth_expenses,
        show profileAlmostOneMonth.current_savings.getD 0 = 970 from rfl]
      norm_num)]
    rw [monthsSavedCode_profileAlmostOneMonth]
    rw [if_neg (by norm_num : ¬((1 : ℚ) < 1))]

/-- Claim C6 (amended): the emergency-fund detector emits an issue exactly
when `current_savings < 3 × monthly_expenses` (in particular never when
expenses are 0 and savings are nonnegative); the emitted issue has severity
high when the code's months_saved — `savings / expenses` rounded to one
decimal, 0 when expenses are 0 — is < 1, and medium otherwise. -/
theorem emergency_fund_detector_amended (p : Profile) (hwf : p.WellFormed) :
    ((check_emergency_fund p).isSome ↔ p.current_savings.getD 0 < p.monthly_expenses * 3)
    ∧ ∀ i, check_emergency_fund p = some i →
        i.issue = "Insufficient emergency fund"
        ∧ i.severity =
            (if monthsSavedCode p < 1 then Severity.high else Severity.medium) := by
  rw [check_emergency_fund_eq]
  by_cases h : p.current_savings.getD 0 < p.monthly_expenses * 3
  · rw [if_pos h]
    refine ⟨by simpa using h, ?_⟩
    intro i hi
    rw [Option.some_inj] at hi
    rw [← hi]
    exact ⟨rfl, rfl⟩
  · rw [if_neg h]
    refine ⟨by simpa using h, ?_⟩
    intro i hi
    exact absurd hi (by simp)

/-- Witness for C6's amended claim at the concrete well-formed profile
`profileAlmostOneMonth`. -/
theorem emergency_fund_detector_amended_witness :
    (check_emergency_fund profileAlmostOneMonth).isSome ↔
      profileAlmostOneMonth.current_savings.getD 0
        < profileAlmostOneMonth.monthly_expenses * 3 :=
  (emergency_fund_detector_amended profileAlmostOneMonth profileAlmostOneMonth_wf).1

end FinancialAnalyzer

namespace FinancialSimulator

/-- Closed form of the debt update. -/
theorem debtStep_eq (avg_apr_pct e d : ℚ) :
    debtStep avg_apr_pct e d =
      if 0 < d then
        d + d * (avg_apr_pct / 100 / 12)
          - min (max (d * (2/100)) 25 + e) (d + d * (avg_apr_pct / 100 / 12))
      else d := rfl

/-- The debt component of a month step is the pure debt recursion. -/
theorem monthStep_total_debt (me apr e g : ℚ) (i : ℕ) (s : SimState) :
    (monthStep me apr e g i s).total_debt = debtStep apr e s.total_debt := by
  unfold monthStep debtStep
  by_cases h : 0 < s.total_debt
  · rw [if_pos h, if_pos h]
  · rw [if_neg h, if_neg h]

/-- The simulated debt column equals the iterated debt recursion. -/
theorem simStates_total_debt (me apr e g : ℚ) (init : SimState) :
    ∀ n, (simStates me apr e g init n).total_debt = debtIter apr e init.total_debt n := by
  intro n
  induction n with
  | zero => rfl
  | succ n ih =>
    show (monthStep me apr e g n (simStates me apr e g init n)).total_debt
        = debtStep apr e (debtIter apr e init.total_debt n)
    rw [monthStep_total_debt, ih]

/-- A nonnegative balance stays nonnegative: the payment is capped by
`balance + interest`. -/
theorem debtStep_nonneg (apr e d : ℚ) (hd : 0 ≤ d) : 0 ≤ debtStep apr e d := by
  rw [debtStep_eq]
  by_cases h : 0 < d
  · rw [if_pos h]
    have hmin : min (max (d * (2/100)) 25 + e) (d + d * (apr / 100 / 12))
        ≤ d + d * (apr / 100 / 12) := min_le_right _ _
    linarith
  · rw [if_neg h]
    exact hd

/-- Monotonicity of one debt step: a smaller balance paying at least as much
extra stays smaller. -/
theorem debtStep_le_debtStep (apr : ℚ) (hapr : 0 ≤ apr) (e1 e2 d1 d2 : ℚ)
    (he2 : 0 ≤ e2) (he : e2 ≤ e1) (hd1 : 0 ≤ d1) (hdd : d1 ≤ d2) :
    debtStep apr e1 d1 ≤ debtStep apr e2 d2 := by
  rw [debtStep_eq, debtStep_eq]
  have hm : (0 : ℚ) ≤ apr / 100 / 12 := by positivity
  have hmul : d1 * (apr / 100 / 12) ≤ d2 * (apr / 100 / 12) :=
    mul_le_mul_of_nonneg_right hdd hm
  have key : ∀ x a : ℚ, x - min a x = max (x - a) 0 := by
    intro x a
    rcases le_total a x with h | h
    · rw [min_eq_left h, max_eq_left (by linarith)]
    · rw [min_eq_right h, sub_self, max_eq_right (by linarith)]
  by_cases h1 : 0 < d1
  · have h2 : 0 < d2 := lt_of_lt_of_le h1 hdd
    rw [if_pos h1, if_pos h2, key, key]
    apply max_le_max ?_ (le_refl 0)
    rcases le_total (d1 * (2/100)) 25 with hA | hA <;>
      rcases le_total (d2 * (2/100)) 25 with hB | hB
    · rw [max_eq_right hA, max_eq_right hB]
      linarith
    · rw [max_eq_right hA, max_eq_left hB]
      linarith
    · rw [max_eq_left hA, max_eq_right hB]
      linarith
    · rw [max_eq_left hA, max_eq_left hB]
      linarith
  · rw [if_neg h1]
    by_cases h2 : 0 < d2
    · rw [if_pos h2]
      have hmin : min (max (d2 * (2/100)) 25 + e2) (d2 + d2 * (apr / 100 / 12))
          ≤ d2 + d2 * (apr / 100 / 12) := min_le_right _ _
      have hd1z : d1 ≤ 0 := not_lt.mp h1
      linarith
    · rw [if_neg h2]
      exact hdd

theorem debtIter_nonneg (apr e d0 : ℚ) (hd0 : 0 ≤ d0) :
    ∀ n, 0 ≤ debtIter apr e d0 n := by
  intro n
  induction n with
  | zero => exact hd0
  | succ n ih => exact debtStep_nonneg apr e _ ih

/-- Paying extra every month keeps the balance pointwise below the
extra-free balance. -/
theorem debtIter_le (apr e : ℚ) (hapr : 0 ≤ apr) (he : 0 ≤ e) (d0 : ℚ) (hd0 : 0 ≤ d0) :
    ∀ n, debtIter apr e d0 n ≤ debtIter apr 0 d0 n := by
  intro n
  induction n with
  | zero => exact le_refl d0
  | succ n ih =>
    exact debtStep_le_debtStep apr hapr e 0 _ _ (le_refl 0) he
      (debtIter_nonneg apr e d0 hd0 n) ih

theorem findFrom_spec (p : ℕ → Bool) :
    ∀ fuel start n, findFrom p start fuel = some n →
      p n = true ∧ start ≤ n ∧ n < start + fuel := by
  intro fuel
  induction fuel with
  | zero =>
    intro start n h
    exact absurd h (by simp [findFrom])
  | succ fuel ih =>
    intro start n h
    rw [findFrom] at h
    by_cases hp : p start = true
    · rw [if_pos hp, Option.some_inj] at h
      subst h
      exact ⟨hp, le_refl _, by omega⟩
    · rw [if_neg hp] at h
      obtain ⟨h1, h2, h3⟩ := ih (start + 1) n h
      exact ⟨h1, by omega, by omega⟩

theorem findFrom_le_of_true (p : ℕ → Bool) :
    ∀ fuel start n, start ≤ n → n < start + fuel → p n = true →
      ∃ m, findFrom p start fuel = some m ∧ m ≤ n := by
  intro fuel
  induction fuel with
  | zero =>
    intro start n h1 h2 _
    omega
  | succ fuel ih =>
    intro start n h1 h2 hn
    rw [findFrom]
    by_cases hp : p start = true
    · exact ⟨start, by rw [if_pos hp], h1⟩
    · rw [if_neg hp]
      have hne : n ≠ start := fun hEq => hp (hEq ▸ hn)
      exact ih (start + 1) n (by omega) (by omega) hn

/-- Claim C3: for the same positive starting debt and positive APR, the
improved path (any extra debt payment > 0) reaches a recorded debt of ≤ 0
no later than the current path (extra payment 0) over the same horizon; in
particular if the current path becomes debt-free within the horizon, the
improved path does too.  The other profile quantities (income, expenses,
savings, income growth) do not influence the debt column and are quantified
independently for the two paths. -/
theorem improved_debt_free_no_later
    (meC meI incC incI savC savI d0 apr e growthC growthI : ℚ) (months n : ℕ)
    (hd0 : 0 < d0) (hapr : 0 < apr) (he : 0 < e)
    (hcur : debt_free_month meC apr 0 growthC ⟨incC, savC, d0⟩ months = some n) :
    ∃ m, debt_free_month meI apr e growthI ⟨incI, savI, d0⟩ months = some m ∧ m ≤ n := by
  unfold debt_free_month at hcur ⊢
  obtain ⟨hp, h0n, hlt⟩ := findFrom_spec _ months 0 n hcur
  have hcurd : recordedDebt meC apr 0 growthC ⟨incC, savC, d0⟩ n ≤ 0 :=
    of_decide_eq_true hp
  have hcur2 : debtIter apr 0 d0 (n + 1) ≤ 0 := by
    unfold recordedDebt at hcurd
    rw [simStates_total_debt] at hcurd
    exact le_trans (le_max_right 0 _) hcurd
  have himp : debtIter apr e d0 (n + 1) ≤ 0 :=
    le_trans
      (debtIter_le apr e (le_of_lt hapr) (le_of_lt he) d0 (le_of_lt hd0) (n + 1))
      hcur2
  have hptrue :
      decide (recordedDebt meI apr e growthI ⟨incI, savI, d0⟩ n ≤ 0) = true := by
    apply decide_eq_true
    unfold recordedDebt
    rw [simStates_total_debt]
    exact max_le (le_refl 0) himp
  exact findFrom_le_of_true _ months 0 n (Nat.zero_le n) (by omega) hptrue

/-- One concrete debt step: a balance of 20 at 12% APR is fully paid by the
minimum payment in the first month. -/
theorem debtStep_20 : debtStep 12 0 (20 : ℚ) = 0 := by
  rw [debtStep_eq, if_pos (by norm_num)]
  norm_num [min_def, max_def]

/-- Witness for C3: starting debt 20 at APR 12, horizon 1 month; the current
path is debt-free at month 0, so the improved path (extra payment 100) is
debt-free at some month ≤ 0. -/
theorem improved_debt_free_no_later_witness :
    ∃ m, debt_free_month 0 12 100 0 ⟨0, 0, 20⟩ 1 = some m ∧ m ≤ 0 := by
  apply improved_debt_free_no_later 0 0 0 0 0 0 20 12 100 0 0 1 0
    (by norm_num) (by norm_num) (by norm_num)
  have hrec : recordedDebt 0 12 0 0 (⟨0, 0, 20⟩ : SimState) 0 ≤ 0 := by
    unfold recordedDebt
    rw [simStates_total_debt]
    show max 0 (debtIter 12 0 (⟨(0 : ℚ), 0, 20⟩ : SimState).total_debt (0 + 1)) ≤ 0
    show max 0 (debtStep 12 0 (20 : ℚ)) ≤ 0
    rw [debtStep_20]
    norm_num
  show findFrom _ 0 1 = some 0
  rw [findFrom, if_pos (decide_eq_true hrec)]

end FinancialSimulator

namespace InvestmentSimulator

theorem simLoop_length (alloc : List (String × ℚ)) (ret : String → ℕ → ℚ) (c : ℚ) :
    ∀ (fuel i : ℕ) (v : String → ℚ), (simLoop alloc ret c i fuel v).length = fuel := by
  intro fuel
  induction fuel with
  | zero => intro i v; rfl
  | succ fuel ih =>
    intro i v
    show (simLoop alloc ret c (i + 1) fuel _).length + 1 = fuel + 1
    rw [ih]

theorem valsAfter_shift (alloc : List (String × ℚ)) (ret : String → ℕ → ℚ) (c : ℚ) :
    ∀ (k i0 : ℕ) (v : String → ℚ),
      valsAfter alloc ret c i0 v (k + 1)
        = valsAfter alloc ret c (i0 + 1) (stepValues alloc (fun a => ret a i0) c v) k := by
  intro k
  induction k with
  | zero => intro i0 v; rfl
  | succ k ih =>
    intro i0 v
    show stepValues alloc (fun a => ret a (i0 + (k + 1))) c
          (valsAfter alloc ret c i0 v (k + 1))
        = stepValues alloc (fun a => ret a ((i0 + 1) + k)) c
          (valsAfter alloc ret c (i0 + 1) (stepValues alloc (fun a => ret a i0) c v) k)
    have hidx : i0 + (k + 1) = (i0 + 1) + k := by omega
    rw [hidx, ih]

/-- The row recorded at month index `j` holds the per-asset values after
`j + 1` updates, and their active-asset total. -/
theorem simLoop_get (alloc : List (String × ℚ)) (ret : String → ℕ → ℚ) (c : ℚ) :
    ∀ (j fuel i0 : ℕ) (v : String → ℚ)
      (h : j < (simLoop alloc ret c i0 fuel v).length),
      (simLoop alloc ret c i0 fuel v).get ⟨j, h⟩
        = ⟨sumActive alloc (valsAfter alloc ret c i0 v (j + 1)),
           valsAfter alloc ret c i0 v (j + 1)⟩ := by
  intro j
  induction j with
  | zero =>
    intro fuel i0 v h
    cases fuel with
    | zero => simp [simLoop] at h
    | succ fuel => rfl
  | succ j ih =>
    intro fuel i0 v h
    cases fuel with
    | zero => simp [simLoop] at h
    | succ fuel =>
      have h2 : j < (simLoop alloc ret c (i0 + 1) fuel
          (stepValues alloc (fun a => ret a i0) c v)).length := by
        rw [simLoop_length]
        rw [simLoop_length] at h
        omega
      show (simLoop alloc ret c (i0 + 1) fuel
          (stepValues alloc (fun a => ret a i0) c v)).get ⟨j, h2⟩ = _
      rw [ih fuel (i0 + 1) _ h2, ← valsAfter_shift]

/-- Claim C10: in every series returned by `simulate_investment_path`, the
recorded `total_value` at each month index equals the sum, over the asset
classes with nonzero allocation weight, of the per-asset values recorded for
that same month. -/
theorem total_value_eq_sum_of_asset_values
    (risk_profile : String) (allocation : List (String × ℚ))
    (monthly_contribution initial_investment : ℚ) (ret : String → ℕ → ℚ)
    (months : ℕ) (rows : List RowQ)
    (halloc : risk_profiles.lookup risk_profile = some allocation)
    (hsim : simulate_investment_path risk_profile monthly_contribution
        initial_investment ret months = Except.ok rows) :
    ∀ (i : ℕ) (hi : i < rows.length),
      (rows.get ⟨i, hi⟩).total_value
        = sumActive allocation (rows.get ⟨i, hi⟩).vals := by
  unfold simulate_investment_path at hsim
  rw [halloc] at hsim
  have hrows : rows = simLoop allocation ret monthly_contribution 0 months
      (fun a => initial_investment * allocW allocation a) := by
    injection hsim with h
    exact h.symm
  subst hrows
  intro i hi
  rw [simLoop_get]

theorem c10rows_length_pos : 0 < c10rows.length := by
  unfold c10rows
  rw [simLoop_length]
  norm_num

/-- Witness for C10 at the moderate profile, one month, zero returns. -/
theorem total_value_eq_sum_of_asset_values_witness :
    (c10rows.get ⟨0, c10rows_length_pos⟩).total_value
      = sumActive moderate_allocation (c10rows.get ⟨0, c10rows_length_pos⟩).vals :=
  total_value_eq_sum_of_asset_values "moderate" moderate_allocation 5 10 zeroReturns
    1 c10rows rfl rfl 0 c10rows_length_pos

/-- Claim C7: `_generate_monthly_returns` draws from a normal distribution
with mean `(1 + annualReturn) ^ (1/12) − 1` and standard deviation
`annualVolatility / √12`; and, for any fixed per-asset return sequences,
every asset class with nonzero allocation weight advances by
`value[t] = value[t−1] × (1 + r[t]) + contribution × weight`, the value
before month 0 being `initialInvestment × weight`. -/
theorem investment_returns_and_recurrence :
    (∀ (name : String) (ac : AssetClass) (months : ℕ),
        asset_classes.lookup name = some ac →
        generate_monthly_returns name months =
          some ⟨(1 + (ac.avg_return : ℝ)) ^ ((1 : ℝ) / 12) - 1,
                (ac.volatility : ℝ) / Real.sqrt 12, months⟩)
    ∧ ∀ (risk_profile : String) (allocation : List (String × ℚ))
        (monthly_contribution initial_investment : ℚ) (ret : String → ℕ → ℚ)
        (months : ℕ) (rows : List RowQ) (a : String),
        risk_profiles.lookup risk_profile = some allocation →
        simulate_investment_path risk_profile monthly_contribution
            initial_investment ret months = Except.ok rows →
        0 < allocW allocation a →
        (∀ h0 : 0 < rows.length,
            (rows.get ⟨0, h0⟩).vals a
              = initial_investment * allocW allocation a * (1 + ret a 0)
                + monthly_contribution * allocW allocation a)
        ∧ ∀ (t : ℕ) (ht : t < rows.length) (ht2 : t + 1 < rows.length),
            (rows.get ⟨t + 1, ht2⟩).vals a
              = (rows.get ⟨t, ht⟩).vals a * (1 + ret a (t + 1))
                + monthly_contribution * allocW allocation a := by
  constructor
  · intro name ac months h
    unfold generate_monthly_returns
    rw [h]
    rfl
  · intro rp allocation c init ret months rows a halloc hsim hw
    unfold simulate_investment_path at hsim
    rw [halloc] at hsim
    have hrows : rows = simLoop allocation ret c 0 months
        (fun x => init * allocW allocation x) := by
      injection hsim with h
      exact h.symm
    subst hrows
    constructor
    · intro h0
      rw [simLoop_get]
      show (if 0 < allocW allocation a then
          init * allocW allocation a * (1 + ret a (0 + 0))
            + c * allocW allocation a
        else init * allocW allocation a) = _
      rw [if_pos hw]
    · intro t ht ht2
      rw [simLoop_get, simLoop_get]
      show (stepValues allocation (fun x => ret x (0 + (t + 1))) c
          (valsAfter allocation ret c 0 (fun x => init * allocW allocation x) (t + 1))) a
        = _
      unfold stepValues
      rw [if_pos hw]
      rw [Nat.zero_add]

theorem allocW_moderate_bonds : allocW moderate_allocation "bonds" = 30 / 100 := rfl

/-- Witness for C7: the bonds asset of the catalog, and the first recorded
month of the concrete moderate-profile run. -/
theorem investment_returns_and_recurrence_witness :
    generate_monthly_returns "bonds" 12 =
      some ⟨(1 + ((4/100 : ℚ) : ℝ)) ^ ((1 : ℝ) / 12) - 1,
            ((5/100 : ℚ) : ℝ) / Real.sqrt 12, 12⟩
    ∧ (c10rows.get ⟨0, c10rows_length_pos⟩).vals "bonds"
        = 10 * allocW moderate_allocation "bonds" * (1 + zeroReturns "bonds" 0)
          + 5 * allocW moderate_allocation "bonds" :=
  ⟨investment_returns_and_recurrence.1 "bonds" ⟨4/100, 5/100, "low"⟩ 12 rfl,
   (investment_returns_and_recurrence.2 "moderate" moderate_allocation 5 10
      zeroReturns 1 c10rows "bonds" rfl rfl
      (by rw [allocW_moderate_bonds]; norm_num)).1 c10rows_length_pos⟩

/-- The threshold chain is monotone: a larger weighted score never maps to a
lower risk tier. -/
theorem score_to_profile_mono {s1 s2 : ℚ} (h : s1 ≤ s2) :
    riskTierIndex (score_to_profile s1) ≤ riskTierIndex (score_to_profile s2) := by
  unfold score_to_profile
  split_ifs <;> first
    | decide
    | linarith

/-- Claim C8: with all other profile fields fixed, the recommended risk
profile is monotonically non-decreasing in the stated risk tolerance
Low ≤ Medium ≤ High, under the tier order very_conservative < conservative
< moderate < aggressive < very_aggressive. -/
theorem recommendation_monotone_in_risk_tolerance
    (mi cs ms : Option ℚ) (exps : List (String × ℚ)) (pdt : Option String)
    (apr td ageF : Option ℚ) :
    riskTierIndex (recommend_risk_profile
        ⟨mi, cs, ms, exps, pdt, apr, td, ageF, some "Low"⟩)
      ≤ riskTierIndex (recommend_risk_profile
        ⟨mi, cs, ms, exps, pdt, apr, td, ageF, some "Medium"⟩)
    ∧ riskTierIndex (recommend_risk_profile
        ⟨mi, cs, ms, exps, pdt, apr, td, ageF, some "Medium"⟩)
      ≤ riskTierIndex (recommend_risk_profile
        ⟨mi, cs, ms, exps, pdt, apr, td, ageF, some "High"⟩) := by
  constructor
  · apply score_to_profile_mono
    apply add_le_add_left
    show (3 : ℚ) * (2/10) ≤ 6 * (2/10)
    norm_num
  · apply score_to_profile_mono
    apply add_le_add_left
    show (6 : ℚ) * (2/10) ≤ 9 * (2/10)
    norm_num

end InvestmentSimulator

end FinancialPlanner
